import Mathlib

/-!
Shallow embedding of the gateway enable/disable orchestration and the DNS
relay worker of esp32-napt-hotspot (src/src/napt_interface.cpp).

External calls (esp_netif, esp_wifi, lwIP NAPT, BSD sockets, FreeRTOS
delays) are modelled by an environment record supplying each call's
outcome, together with an event trace recording the calls the code issues
in order.  IPv4 addresses are kept abstract as the 32-bit value the ESP32
(little-endian) reads from the network-byte-order address fields; they are
modelled as plain Nat.
-/

namespace NaptInterface

/-- Byte string: contents of a C char buffer, one Nat per byte. -/
abbrev Bytes := List Nat

/-- IP4_ADDR(a,b,c,d): network-byte-order 32-bit address, read as the
ESP32 little-endian uint32. -/
def ip4 (a b c d : Nat) : Nat := a + b * 256 + c * 65536 + d * 16777216

/-- Fallback resolver 8.8.8.8 (note htonl 0x08080808 = 0x08080808). -/
def fallbackDns : Nat := ip4 8 8 8 8

/-- WiFi driver mode (WIFI_MODE_STA / WIFI_MODE_APSTA). -/
inductive WifiMode
  | sta
  | apsta
deriving DecidableEq

/-- AP auth mode (WIFI_AUTH_OPEN / WIFI_AUTH_WPA2_PSK). -/
inductive AuthMode
  | openAuth
  | wpa2Psk
deriving DecidableEq

/-- The fields of wifi_config_t.ap that enable_hotspot fills in.
The 32-byte ssid array and 64-byte password array are modelled by the
C-string content strncpy left in them (at most 31 resp. 63 bytes). -/
structure WifiApConfig where
  ssid : Bytes
  ssid_len : Nat
  password : Bytes
  authmode : AuthMode
  channel : Nat
  max_connection : Nat
  beacon_interval : Nat
deriving DecidableEq

/-- Compiled-in DEFAULT_HOTSPOT_SSID, as bytes. -/
def DEFAULT_HOTSPOT_SSID : Bytes := (String.toList "ESP32-Hotspot").map Char.toNat

/-- Compiled-in DEFAULT_HOTSPOT_PASSWORD, as bytes. -/
def DEFAULT_HOTSPOT_PASSWORD : Bytes := (String.toList "esp32hotspot").map Char.toNat

/-- External calls issued by the orchestrator, in program order. -/
inductive Ev
  | dhcpsSetDns (addr : Nat)
  | dhcpsStop
  | setIpInfo (addr : Nat)
  | dhcpsStart
  | setMode (m : WifiMode)
  | delay (ms : Nat)
  | setConfig (c : WifiApConfig)
  | napt (addr : Nat) (en : Nat)
  | closeSocket
  | startWorker
deriving DecidableEq

/-- The file-static state of napt_interface.cpp, plus the WiFi-driver
state (mode, applied AP config) the orchestrator mutates through
esp_wifi calls. -/
structure GatewayState where
  hotspot_enabled : Bool
  ap_netif : Bool
  napt_enabled : Bool
  napt_address : Nat
  upstream_dns : Nat
  dns_forwarder_socket : Int
  dns_forwarder_task_handle : Bool
  wifi_mode : WifiMode
  ap_config : Option WifiApConfig
deriving DecidableEq

/-- State at program start: statics zero/NULL-initialised, STA-only mode. -/
def initState : GatewayState where
  hotspot_enabled := false
  ap_netif := false
  napt_enabled := false
  napt_address := 0
  upstream_dns := 0
  dns_forwarder_socket := -1
  dns_forwarder_task_handle := false
  wifi_mode := WifiMode.sta
  ap_config := none

/-- Exit points of enable_hotspot (the C function returns void and logs;
these tags name the distinct return sites). -/
inductive EnableResult
  | alreadyEnabled
  | preconditionFailed
  | apCreateFailed
  | modeSwitchFailed
  | apConfigFailed
  | interfaceNotReady
  | staHandleLost
  | staIpReadFailed
  | upstreamUnavailable
  | success
deriving DecidableEq

/-- True exactly on the failure exits (not the already-enabled no-op and
not success). -/
def EnableResult.isFailure : EnableResult → Bool
  | EnableResult.alreadyEnabled => false
  | EnableResult.success => false
  | _ => true

/-- Outcomes of the external calls one enable_hotspot run makes.
sta_exists/sta_get_ip_ok/sta_ip feed the initial precondition check;
boot_dns_ok collapses (handle non-NULL and esp_netif_get_dns_info ok);
ap_poll gives esp_netif_get_ip_info's answer on poll attempt i
(none = call failed, some a = reported address a); the 2-suffixed fields
are the step-6/7 re-reads of the STA interface. -/
structure EnableEnv where
  sta_exists : Bool
  sta_get_ip_ok : Bool
  sta_ip : Nat
  ap_create_ok : Bool
  boot_dns_ok : Bool
  boot_dns : Nat
  set_mode_ok : Bool
  set_config_ok : Bool
  ap_poll : Nat → Option Nat
  sta_exists2 : Bool
  sta_get_ip_ok2 : Bool
  sta_ip2 : Nat
  sta_dns_ok2 : Bool
  sta_dns2 : Nat

/-- DNS advertised via DHCP during one-time AP setup: the STA's resolver
if present and non-zero, else 8.8.8.8. -/
def bootDns (env : EnableEnv) : Nat :=
  if env.boot_dns_ok && env.boot_dns != 0 then env.boot_dns else fallbackDns

/-- Step-7 choice of upstream resolver for the forwarder: the STA's
resolver if present and non-zero, else 8.8.8.8. -/
def dnsChoice (env : EnableEnv) : Nat :=
  if env.sta_dns_ok2 && env.sta_dns2 != 0 then env.sta_dns2 else fallbackDns

/-- Step 4: build wifi_config_t.ap.  strncpy with sizeof-1 keeps at most
31 ssid bytes and 63 password bytes; ssid_len is strlen of the full ssid.
Password policy: supplied password of length at least 8, else default
password of length at least 8, else open network. -/
def mk_ap_config (ssid password : Option Bytes) (dssid dpass : Bytes) : WifiApConfig :=
  let ap_ssid := ssid.getD dssid
  let base : WifiApConfig :=
    { ssid := ap_ssid.take 31
      ssid_len := ap_ssid.length
      password := []
      authmode := AuthMode.openAuth
      channel := 1
      max_connection := 4
      beacon_interval := 100 }
  match password with
  | some p =>
      if p.length ≥ 8 then
        { base with password := p.take 63, authmode := AuthMode.wpa2Psk }
      else if dpass.length ≥ 8 then
        { base with password := dpass.take 63, authmode := AuthMode.wpa2Psk }
      else base
  | none =>
      if dpass.length ≥ 8 then
        { base with password := dpass.take 63, authmode := AuthMode.wpa2Psk }
      else base

/-- Step 5: while (retry < 20) { delay 100ms; read AP address; break if
non-zero }.  fuel = 20 - retry; returns the address found (0 on timeout)
and the delay events emitted. -/
def pollLoop (f : Nat → Option Nat) : Nat → Nat → Nat × List Ev
  | _retry, 0 => (0, [])
  | retry, fuel + 1 =>
      match f retry with
      | some a =>
          if a = 0 then
            let r := pollLoop f (retry + 1) fuel
            (r.1, Ev.delay 100 :: r.2)
          else (a, [Ev.delay 100])
      | none =>
          let r := pollLoop f (retry + 1) fuel
          (r.1, Ev.delay 100 :: r.2)

/-- Step 8: enable NAPT on the AP address; if it was enabled on a
different non-zero address, disable it there first and settle 100ms. -/
def naptStep (s : GatewayState) (ap_addr : Nat) : GatewayState × List Ev :=
  if !s.napt_enabled || s.napt_address != ap_addr then
    let pre :=
      if s.napt_enabled && s.napt_address != 0 then
        [Ev.napt s.napt_address 0, Ev.delay 100]
      else []
    ({ s with napt_enabled := true, napt_address := ap_addr },
     pre ++ [Ev.napt ap_addr 1])
  else (s, [])

/-- Step 1/2: one-time creation and IP/DHCP configuration of the AP
interface (skipped when ap_netif is already non-NULL). -/
def oneTimeApSetup (s : GatewayState) (env : EnableEnv) : GatewayState × List Ev :=
  if s.ap_netif then (s, [])
  else
    ({ s with ap_netif := true },
     [Ev.dhcpsSetDns (bootDns env), Ev.dhcpsStop,
      Ev.setIpInfo (ip4 192 168 4 1), Ev.dhcpsStart])

/-- Trace of the calls enable_hotspot has issued once the AP config has
been applied (one-time setup, mode switch, settle delay, config). -/
def preTrace (s : GatewayState) (env : EnableEnv) (ssid password : Option Bytes)
    (dssid dpass : Bytes) : List Ev :=
  (oneTimeApSetup s env).2 ++
    [Ev.setMode WifiMode.apsta, Ev.delay 500,
     Ev.setConfig (mk_ap_config ssid password dssid dpass)]

/-- State after the mode switch and AP config succeeded. -/
def cfgState (s : GatewayState) (env : EnableEnv) (ssid password : Option Bytes)
    (dssid dpass : Bytes) : GatewayState :=
  { (oneTimeApSetup s env).1 with
    wifi_mode := WifiMode.apsta,
    ap_config := some (mk_ap_config ssid password dssid dpass) }

/-- State after step 7 stored the upstream resolver for the forwarder. -/
def dnsState (s : GatewayState) (env : EnableEnv) (ssid password : Option Bytes)
    (dssid dpass : Bytes) : GatewayState :=
  { cfgState s env ssid password dssid dpass with upstream_dns := dnsChoice env }

/-- Result of one enable_hotspot call: final state, exit taken, trace of
external calls. -/
structure EnableOut where
  state : GatewayState
  result : EnableResult
  trace : List Ev
deriving DecidableEq

/-- enable_hotspot(ssid, password), with the compiled-in defaults passed
explicitly (the macros can be overridden via sdkconfig). -/
def enable_hotspot (s : GatewayState) (env : EnableEnv) (ssid password : Option Bytes)
    (dssid dpass : Bytes) : EnableOut :=
  if s.hotspot_enabled then ⟨s, EnableResult.alreadyEnabled, []⟩
  else if !env.sta_exists || !env.sta_get_ip_ok || env.sta_ip == 0 then
    ⟨s, EnableResult.preconditionFailed, []⟩
  else if !s.ap_netif && !env.ap_create_ok then
    ⟨s, EnableResult.apCreateFailed, []⟩
  else if !env.set_mode_ok then
    ⟨(oneTimeApSetup s env).1, EnableResult.modeSwitchFailed,
     (oneTimeApSetup s env).2 ++ [Ev.setMode WifiMode.apsta]⟩
  else if !env.set_config_ok then
    ⟨{ (oneTimeApSetup s env).1 with wifi_mode := WifiMode.apsta },
     EnableResult.apConfigFailed, preTrace s env ssid password dssid dpass⟩
  else if (pollLoop env.ap_poll 0 20).1 == 0 then
    ⟨cfgState s env ssid password dssid dpass, EnableResult.interfaceNotReady,
     preTrace s env ssid password dssid dpass ++ (pollLoop env.ap_poll 0 20).2⟩
  else if !env.sta_exists2 then
    ⟨cfgState s env ssid password dssid dpass, EnableResult.staHandleLost,
     preTrace s env ssid password dssid dpass ++ (pollLoop env.ap_poll 0 20).2⟩
  else if !env.sta_get_ip_ok2 then
    ⟨cfgState s env ssid password dssid dpass, EnableResult.staIpReadFailed,
     preTrace s env ssid password dssid dpass ++ (pollLoop env.ap_poll 0 20).2⟩
  else if env.sta_ip2 == 0 then
    ⟨cfgState s env ssid password dssid dpass, EnableResult.upstreamUnavailable,
     preTrace s env ssid password dssid dpass ++ (pollLoop env.ap_poll 0 20).2⟩
  else if !(dnsState s env ssid password dssid dpass).dns_forwarder_task_handle then
    ⟨{ (naptStep (dnsState s env ssid password dssid dpass)
          (pollLoop env.ap_poll 0 20).1).1 with
        hotspot_enabled := true, dns_forwarder_task_handle := true },
     EnableResult.success,
     preTrace s env ssid password dssid dpass ++ (pollLoop env.ap_poll 0 20).2
       ++ (naptStep (dnsState s env ssid password dssid dpass)
             (pollLoop env.ap_poll 0 20).1).2 ++ [Ev.startWorker]⟩
  else
    ⟨{ (naptStep (dnsState s env ssid password dssid dpass)
          (pollLoop env.ap_poll 0 20).1).1 with hotspot_enabled := true },
     EnableResult.success,
     preTrace s env ssid password dssid dpass ++ (pollLoop env.ap_poll 0 20).2
       ++ (naptStep (dnsState s env ssid password dssid dpass)
             (pollLoop env.ap_poll 0 20).1).2⟩

/-- Outcome of the one external call disable_hotspot checks. -/
structure DisableEnv where
  set_mode_ok : Bool

/-- disable step 1: if a worker task handle is present, give the task a
200ms grace delay, force-close its listening socket if still open, and
clear the handle. -/
def stopWorker (s : GatewayState) : GatewayState × List Ev :=
  if s.dns_forwarder_task_handle then
    if s.dns_forwarder_socket ≥ 0 then
      ({ s with dns_forwarder_socket := -1, dns_forwarder_task_handle := false },
       [Ev.delay 200, Ev.closeSocket])
    else ({ s with dns_forwarder_task_handle := false }, [Ev.delay 200])
  else (s, [])

/-- disable step 2: disable NAPT if it is bound on a non-zero address. -/
def unbindNapt (s : GatewayState) : GatewayState × List Ev :=
  if s.napt_enabled && s.napt_address != 0 then
    ({ s with napt_enabled := false, napt_address := 0 },
     [Ev.napt s.napt_address 0])
  else (s, [])

/-- disable_hotspot(): clear the flag, reclaim the worker socket after a
200ms grace delay, disable NAPT, revert to STA mode. -/
def disable_hotspot (s : GatewayState) (env : DisableEnv) : GatewayState × List Ev :=
  if !s.hotspot_enabled then (s, [])
  else
    let w := stopWorker { s with hotspot_enabled := false }
    let n := unbindNapt w.1
    let s4 := if env.set_mode_ok then { n.1 with wifi_mode := WifiMode.sta } else n.1
    (s4, w.2 ++ n.2 ++ [Ev.setMode WifiMode.sta])

/-- is_hotspot_enabled(): pure read of the flag. -/
def is_hotspot_enabled (s : GatewayState) : Bool := s.hotspot_enabled

/-- A shared-network client endpoint (sockaddr_in: address, port). -/
structure ClientAddr where
  addr : Nat
  port : Nat
deriving DecidableEq

/-- Datagrams the DNS relay worker sends. -/
inductive WEv
  | sendUpstream (dest : Nat) (data : Bytes)
  | sendClient (dest : ClientAddr) (data : Bytes)
deriving DecidableEq

/-- Outcomes of the per-query external calls: whether the transient
upstream socket could be created, and the upstream resolver's reply
datagram (none = no reply before the 2-second timeout). -/
structure RelayEnv where
  upstream_sock_ok : Bool
  upstream_reply : Option Bytes
deriving DecidableEq

/-- What recvfrom on the listening socket yields this iteration:
the 1-second tick timeout, a hard error, or a client datagram. -/
inductive RecvResult
  | timeout
  | fatal
  | datagram (client : ClientAddr) (data : Bytes)
deriving DecidableEq

/-- Environment of one worker-loop iteration: the hotspot_enabled value
sampled by the while condition, the listening-socket receive outcome, and
the relay outcomes used if a query is processed. -/
structure WorkerIter where
  flag : Bool
  recv : RecvResult
  relay : RelayEnv
deriving DecidableEq

/-- Observable outcome of a worker-loop run: whether the loop was left
(and cleanup ran), whether close(sock) was called, the final
dns_forwarder_socket value, the datagrams sent, and how many iterations
sampled the flag as true and ran a loop body. -/
structure WorkerOut where
  exited : Bool
  socket_closed : Bool
  marker : Int
  events : List WEv
  processed : Nat
deriving DecidableEq

/-- Body of the `if (len > 0)` block: forward the received query bytes to
the upstream resolver on a fresh transient socket and, if a non-empty
reply arrives within the 2s timeout, forward it verbatim (as received
into the 512-byte buffer with one byte reserved, hence at most 511 bytes)
back to the client. -/
def relay_one (upstream : Nat) (client : ClientAddr) (query : Bytes)
    (env : RelayEnv) : List WEv :=
  if !env.upstream_sock_ok then []
  else
    match env.upstream_reply with
    | some r =>
        let resp := r.take 511
        if resp.length > 0 then
          [WEv.sendUpstream upstream query, WEv.sendClient client resp]
        else [WEv.sendUpstream upstream query]
    | none => [WEv.sendUpstream upstream query]

/-- The dns_forwarder_task main loop (after the socket is created and
bound), driven by a schedule of iteration environments.  sock is the
listening-socket descriptor held in dns_forwarder_socket.  recvfrom reads
at most 511 bytes (sizeof rx_buffer - 1), so the processed query is the
datagram truncated to 511 bytes.  On a false flag sample or a hard
receive error the loop is left, close(sock) runs and the marker is reset
to -1.  An exhausted schedule means the loop is still running. -/
def dns_forwarder_loop (upstream : Nat) (sock : Int) : List WorkerIter → WorkerOut
  | [] => ⟨false, false, sock, [], 0⟩
  | it :: rest =>
      if !it.flag then ⟨true, true, -1, [], 0⟩
      else
        match it.recv with
        | RecvResult.fatal => ⟨true, true, -1, [], 1⟩
        | RecvResult.timeout =>
            let o := dns_forwarder_loop upstream sock rest
            ⟨o.exited, o.socket_closed, o.marker, o.events, o.processed + 1⟩
        | RecvResult.datagram client data =>
            let received := data.take 511
            let evs :=
              if received.length > 0 then relay_one upstream client received it.relay
              else []
            let o := dns_forwarder_loop upstream sock rest
            ⟨o.exited, o.socket_closed, o.marker, evs ++ o.events, o.processed + 1⟩

/-- The payload handed to the original client by a relay event list, if
any. -/
def sentToClient : List WEv → Option Bytes
  | [] => none
  | WEv.sendClient _ d :: _ => some d
  | _ :: rest => sentToClient rest

/-- Milliseconds of delay executed before the first close of the
listening socket in an orchestrator trace. -/
def timeToClose : List Ev → Nat
  | [] => 0
  | Ev.closeSocket :: _ => 0
  | Ev.delay ms :: rest => ms + timeToClose rest
  | _ :: rest => timeToClose rest

/-- Is this event an ip_napt_enable call? -/
def Ev.isNapt : Ev → Bool
  | Ev.napt _ _ => true
  | _ => false

/-- Is this event an esp_wifi_set_mode call? -/
def Ev.isSetMode : Ev → Bool
  | Ev.setMode _ => true
  | _ => false

/-- Is this event an esp_wifi_set_config call? -/
def Ev.isSetCfg : Ev → Bool
  | Ev.setConfig _ => true
  | _ => false

/-- Is this event one of the 100ms poll delays? -/
def Ev.isDelay100 : Ev → Bool
  | Ev.delay ms => ms == 100
  | _ => false

/-- The ip_napt_enable calls of a trace, in order. -/
def naptCalls (tr : List Ev) : List Ev := tr.filter Ev.isNapt

/-- One public call of the orchestrator, with the outcomes of its
external calls. -/
inductive Call
  | enable (env : EnableEnv) (ssid password : Option Bytes)
  | disable (env : DisableEnv)

/-- Run a sequence of enable/disable calls (compiled-in defaults). -/
def runCalls (s : GatewayState) : List Call → GatewayState
  | [] => s
  | Call.enable env ssid password :: rest =>
      runCalls (enable_hotspot s env ssid password
        DEFAULT_HOTSPOT_SSID DEFAULT_HOTSPOT_PASSWORD).state rest
  | Call.disable env :: rest =>
      runCalls (disable_hotspot s env).1 rest

@[simp] lemma oneTimeApSetup_hotspot (s : GatewayState) (env : EnableEnv) :
    (oneTimeApSetup s env).1.hotspot_enabled = s.hotspot_enabled := by
  unfold oneTimeApSetup; split_ifs <;> rfl

@[simp] lemma oneTimeApSetup_napt (s : GatewayState) (env : EnableEnv) :
    (oneTimeApSetup s env).1.napt_enabled = s.napt_enabled := by
  unfold oneTimeApSetup; split_ifs <;> rfl

@[simp] lemma oneTimeApSetup_napt_addr (s : GatewayState) (env : EnableEnv) :
    (oneTimeApSetup s env).1.napt_address = s.napt_address := by
  unfold oneTimeApSetup; split_ifs <;> rfl

@[simp] lemma oneTimeApSetup_handle (s : GatewayState) (env : EnableEnv) :
    (oneTimeApSetup s env).1.dns_forwarder_task_handle = s.dns_forwarder_task_handle := by
  unfold oneTimeApSetup; split_ifs <;> rfl

@[simp] lemma oneTimeApSetup_socket (s : GatewayState) (env : EnableEnv) :
    (oneTimeApSetup s env).1.dns_forwarder_socket = s.dns_forwarder_socket := by
  unfold oneTimeApSetup; split_ifs <;> rfl

@[simp] lemma oneTimeApSetup_mode (s : GatewayState) (env : EnableEnv) :
    (oneTimeApSetup s env).1.wifi_mode = s.wifi_mode := by
  unfold oneTimeApSetup; split_ifs <;> rfl

@[simp] lemma oneTimeApSetup_cfg (s : GatewayState) (env : EnableEnv) :
    (oneTimeApSetup s env).1.ap_config = s.ap_config := by
  unfold oneTimeApSetup; split_ifs <;> rfl

@[simp] lemma oneTimeApSetup_netif (s : GatewayState) (env : EnableEnv) :
    (oneTimeApSetup s env).1.ap_netif = true := by
  unfold oneTimeApSetup; split_ifs with h <;> simp [h]

@[simp] lemma naptStep_napt (s : GatewayState) (a : Nat) :
    (naptStep s a).1.napt_enabled = true := by
  unfold naptStep; split_ifs with h h2
  · rfl
  · rfl
  · have hh : s.napt_enabled = true ∧ s.napt_address = a := by
      constructor
      · by_contra hc
        exact h (by simp [Bool.not_eq_true] at hc; simp [hc])
      · by_contra hc
        exact h (by simp [hc])
    simpa using hh.1

@[simp] lemma naptStep_addr (s : GatewayState) (a : Nat) :
    (naptStep s a).1.napt_address = a := by
  unfold naptStep; split_ifs with h h2
  · rfl
  · rfl
  · have hh : s.napt_enabled = true ∧ s.napt_address = a := by
      constructor
      · by_contra hc
        exact h (by simp [Bool.not_eq_true] at hc; simp [hc])
      · by_contra hc
        exact h (by simp [hc])
    simpa using hh.2

@[simp] lemma naptStep_hotspot (s : GatewayState) (a : Nat) :
    (naptStep s a).1.hotspot_enabled = s.hotspot_enabled := by
  unfold naptStep; split_ifs <;> rfl

@[simp] lemma naptStep_handle (s : GatewayState) (a : Nat) :
    (naptStep s a).1.dns_forwarder_task_handle = s.dns_forwarder_task_handle := by
  unfold naptStep; split_ifs <;> rfl

@[simp] lemma naptStep_mode (s : GatewayState) (a : Nat) :
    (naptStep s a).1.wifi_mode = s.wifi_mode := by
  unfold naptStep; split_ifs <;> rfl

@[simp] lemma naptStep_cfg (s : GatewayState) (a : Nat) :
    (naptStep s a).1.ap_config = s.ap_config := by
  unfold naptStep; split_ifs <;> rfl

@[simp] lemma cfgState_hotspot (s : GatewayState) (env : EnableEnv)
    (ssid password : Option Bytes) (dssid dpass : Bytes) :
    (cfgState s env ssid password dssid dpass).hotspot_enabled = s.hotspot_enabled := by
  simp [cfgState]

@[simp] lemma cfgState_napt (s : GatewayState) (env : EnableEnv)
    (ssid password : Option Bytes) (dssid dpass : Bytes) :
    (cfgState s env ssid password dssid dpass).napt_enabled = s.napt_enabled := by
  simp [cfgState]

@[simp] lemma cfgState_napt_addr (s : GatewayState) (env : EnableEnv)
    (ssid password : Option Bytes) (dssid dpass : Bytes) :
    (cfgState s env ssid password dssid dpass).napt_address = s.napt_address := by
  simp [cfgState]

@[simp] lemma cfgState_handle (s : GatewayState) (env : EnableEnv)
    (ssid password : Option Bytes) (dssid dpass : Bytes) :
    (cfgState s env ssid password dssid dpass).dns_forwarder_task_handle =
      s.dns_forwarder_task_handle := by
  simp [cfgState]

@[simp] lemma cfgState_mode (s : GatewayState) (env : EnableEnv)
    (ssid password : Option Bytes) (dssid dpass : Bytes) :
    (cfgState s env ssid password dssid dpass).wifi_mode = WifiMode.apsta := by
  simp [cfgState]

@[simp] lemma cfgState_cfg (s : GatewayState) (env : EnableEnv)
    (ssid password : Option Bytes) (dssid dpass : Bytes) :
    (cfgState s env ssid password dssid dpass).ap_config =
      some (mk_ap_config ssid password dssid dpass) := by
  simp [cfgState]

@[simp] lemma dnsState_hotspot (s : GatewayState) (env : EnableEnv)
    (ssid password : Option Bytes) (dssid dpass : Bytes) :
    (dnsState s env ssid password dssid dpass).hotspot_enabled = s.hotspot_enabled := by
  simp [dnsState]

@[simp] lemma dnsState_napt (s : GatewayState) (env : EnableEnv)
    (ssid password : Option Bytes) (dssid dpass : Bytes) :
    (dnsState s env ssid password dssid dpass).napt_enabled = s.napt_enabled := by
  simp [dnsState]

@[simp] lemma dnsState_napt_addr (s : GatewayState) (env : EnableEnv)
    (ssid password : Option Bytes) (dssid dpass : Bytes) :
    (dnsState s env ssid password dssid dpass).napt_address = s.napt_address := by
  simp [dnsState]

@[simp] lemma dnsState_handle (s : GatewayState) (env : EnableEnv)
    (ssid password : Option Bytes) (dssid dpass : Bytes) :
    (dnsState s env ssid password dssid dpass).dns_forwarder_task_handle =
      s.dns_forwarder_task_handle := by
  simp [dnsState]

@[simp] lemma stopWorker_hotspot (s : GatewayState) :
    (stopWorker s).1.hotspot_enabled = s.hotspot_enabled := by
  unfold stopWorker; split_ifs <;> rfl

@[simp] lemma stopWorker_napt (s : GatewayState) :
    (stopWorker s).1.napt_enabled = s.napt_enabled := by
  unfold stopWorker; split_ifs <;> rfl

@[simp] lemma stopWorker_napt_addr (s : GatewayState) :
    (stopWorker s).1.napt_address = s.napt_address := by
  unfold stopWorker; split_ifs <;> rfl

@[simp] lemma unbindNapt_hotspot (s : GatewayState) :
    (unbindNapt s).1.hotspot_enabled = s.hotspot_enabled := by
  unfold unbindNapt; split_ifs <;> rfl

/-- Under the binding-address invariant, disable's NAPT step always
leaves the binding absent. -/
lemma unbindNapt_clears (s : GatewayState) (h : s.napt_enabled = true → s.napt_address ≠ 0) :
    (unbindNapt s).1.napt_enabled = false := by
  unfold unbindNapt
  split_ifs with hc
  · rfl
  · simp only [Bool.and_eq_true, bne_iff_ne, ne_eq, not_and, not_not] at hc
    by_cases hn : s.napt_enabled = true
    · exact absurd (hc hn) (h hn)
    · simpa using Bool.of_not_eq_true hn

/-- Every event the address poll emits is a 100ms delay. -/
lemma pollLoop_events (fuel : Nat) :
    ∀ (f : Nat → Option Nat) (retry : Nat) (e : Ev),
      e ∈ (pollLoop f retry fuel).2 → e = Ev.delay 100 := by
  induction fuel with
  | zero => intro f retry e he; simp [pollLoop] at he
  | succ n ih =>
      intro f retry e he
      unfold pollLoop at he
      rcases hf : f retry with _ | a <;> rw [hf] at he
      · rcases List.mem_cons.mp he with h | h
        · exact h
        · exact ih f (retry + 1) e h
      · by_cases ha : a = 0
        · simp only [ha, if_pos rfl] at he
          rcases List.mem_cons.mp he with h | h
          · exact h
          · exact ih f (retry + 1) e h
        · simp only [if_neg ha] at he
          simpa using he

/-- The address poll makes at most fuel-many attempts. -/
lemma pollLoop_length (fuel : Nat) :
    ∀ (f : Nat → Option Nat) (retry : Nat), (pollLoop f retry fuel).2.length ≤ fuel := by
  induction fuel with
  | zero => intro f retry; simp [pollLoop]
  | succ n ih =>
      intro f retry
      unfold pollLoop
      rcases f retry with _ | a
      · simpa using Nat.succ_le_succ (ih f (retry + 1))
      · by_cases ha : a = 0
        · simp only [ha, if_pos rfl]
          simpa using Nat.succ_le_succ (ih f (retry + 1))
        · simp [if_neg ha]

/-- If every attempt reads a failed call or a zero address, the poll
exhausts all fuel, emits one 100ms delay per attempt, and reports 0. -/
lemma pollLoop_timeout (fuel : Nat) :
    ∀ (f : Nat → Option Nat) (retry : Nat),
      (∀ i, retry ≤ i → i < retry + fuel → f i = none ∨ f i = some 0) →
      pollLoop f retry fuel = (0, List.replicate fuel (Ev.delay 100)) := by
  induction fuel with
  | zero => intro f retry _; simp [pollLoop]
  | succ n ih =>
      intro f retry hbad
      have hrec := ih f (retry + 1) (by
        intro i h1 h2
        exact hbad i (Nat.le_of_succ_le h1) (by omega))
      unfold pollLoop
      rcases hbad retry (Nat.le_refl _) (by omega) with h | h <;> rw [h]
      · rw [hrec]; rfl
      · simp only [if_pos rfl]; rw [hrec]; rfl

@[simp] lemma unbindNapt_socket (s : GatewayState) :
    (unbindNapt s).1.dns_forwarder_socket = s.dns_forwarder_socket := by
  unfold unbindNapt; split_ifs <;> rfl

@[simp] lemma unbindNapt_handle (s : GatewayState) :
    (unbindNapt s).1.dns_forwarder_task_handle = s.dns_forwarder_task_handle := by
  unfold unbindNapt; split_ifs <;> rfl

@[simp] lemma oneTime_filter_napt (s : GatewayState) (env : EnableEnv) :
    (oneTimeApSetup s env).2.filter Ev.isNapt = [] := by
  unfold oneTimeApSetup; split_ifs <;> simp [Ev.isNapt]

@[simp] lemma oneTime_filter_setMode (s : GatewayState) (env : EnableEnv) :
    (oneTimeApSetup s env).2.filter Ev.isSetMode = [] := by
  unfold oneTimeApSetup; split_ifs <;> simp [Ev.isSetMode]

@[simp] lemma oneTime_filter_setCfg (s : GatewayState) (env : EnableEnv) :
    (oneTimeApSetup s env).2.filter Ev.isSetCfg = [] := by
  unfold oneTimeApSetup; split_ifs <;> simp [Ev.isSetCfg]

@[simp] lemma oneTime_filter_delay100 (s : GatewayState) (env : EnableEnv) :
    (oneTimeApSetup s env).2.filter Ev.isDelay100 = [] := by
  unfold oneTimeApSetup; split_ifs <;> simp [Ev.isDelay100]

@[simp] lemma preTrace_filter_napt (s : GatewayState) (env : EnableEnv)
    (ssid password : Option Bytes) (dssid dpass : Bytes) :
    (preTrace s env ssid password dssid dpass).filter Ev.isNapt = [] := by
  simp [preTrace, List.filter_append, Ev.isNapt]

@[simp] lemma preTrace_filter_setMode (s : GatewayState) (env : EnableEnv)
    (ssid password : Option Bytes) (dssid dpass : Bytes) :
    (preTrace s env ssid password dssid dpass).filter Ev.isSetMode =
      [Ev.setMode WifiMode.apsta] := by
  simp [preTrace, List.filter_append, Ev.isSetMode]

@[simp] lemma preTrace_filter_setCfg (s : GatewayState) (env : EnableEnv)
    (ssid password : Option Bytes) (dssid dpass : Bytes) :
    (preTrace s env ssid password dssid dpass).filter Ev.isSetCfg =
      [Ev.setConfig (mk_ap_config ssid password dssid dpass)] := by
  simp [preTrace, List.filter_append, Ev.isSetCfg]

@[simp] lemma preTrace_filter_delay100 (s : GatewayState) (env : EnableEnv)
    (ssid password : Option Bytes) (dssid dpass : Bytes) :
    (preTrace s env ssid password dssid dpass).filter Ev.isDelay100 = [] := by
  simp [preTrace, List.filter_append, Ev.isDelay100]

/-- No events of a kind other than 100ms delays occur in the poll trace. -/
lemma poll_filter_eq_nil (f : Nat → Option Nat) (retry fuel : Nat) (p : Ev → Bool)
    (hp : p (Ev.delay 100) = false) : (pollLoop f retry fuel).2.filter p = [] := by
  rw [List.filter_eq_nil_iff]
  intro a ha
  rw [pollLoop_events fuel f retry a ha, hp]
  simp

/-- Every poll-trace event is a 100ms delay (as a filter identity). -/
lemma poll_filter_delay100 (f : Nat → Option Nat) (retry fuel : Nat) :
    (pollLoop f retry fuel).2.filter Ev.isDelay100 = (pollLoop f retry fuel).2 := by
  rw [List.filter_eq_self]
  intro a ha
  rw [pollLoop_events fuel f retry a ha]
  rfl

/-- The NAPT call sequence of the rebind case: unbind the old non-zero
address, settle 100ms, bind the new one. -/
lemma naptStep_trace_rebind (s : GatewayState) (a : Nat) (hb : s.napt_enabled = true)
    (hnz : s.napt_address ≠ 0) (hdiff : s.napt_address ≠ a) :
    (naptStep s a).2 = [Ev.napt s.napt_address 0, Ev.delay 100, Ev.napt a 1] := by
  simp [naptStep, hb, hnz, hdiff]

/-- The worker loop runs one body per true flag sample and, at the first
false sample, exits, closes its socket and clears the marker. -/
lemma worker_first_false (u : Nat) (sock : Int) (l1 : List WorkerIter) :
    ∀ (it : WorkerIter) (l2 : List WorkerIter),
      (∀ j ∈ l1, j.flag = true ∧ j.recv ≠ RecvResult.fatal) → it.flag = false →
      (dns_forwarder_loop u sock (l1 ++ it :: l2)).exited = true
      ∧ (dns_forwarder_loop u sock (l1 ++ it :: l2)).socket_closed = true
      ∧ (dns_forwarder_loop u sock (l1 ++ it :: l2)).marker = -1
      ∧ (dns_forwarder_loop u sock (l1 ++ it :: l2)).processed = l1.length := by
  induction l1 with
  | nil =>
      intro it l2 _ hit
      simp [dns_forwarder_loop, hit]
  | cons j l1 ih =>
      intro it l2 hall hit
      obtain ⟨hflag, hrecv⟩ := hall j (List.mem_cons_self j l1)
      have ih2 := ih it l2 (fun k hk => hall k (List.mem_cons_of_mem j hk)) hit
      cases hr : j.recv with
      | timeout =>
          simp [dns_forwarder_loop, hflag, hr, ih2.1, ih2.2.1, ih2.2.2.1, ih2.2.2.2]
      | fatal => exact absurd hr hrecv
      | datagram client data =>
          simp [dns_forwarder_loop, hflag, hr, ih2.1, ih2.2.1, ih2.2.2.1, ih2.2.2.2]

/-- Branch equation: enable_hotspot returns at once when already enabled. -/
lemma enable_eq_already (s : GatewayState) (env : EnableEnv) (ssid password : Option Bytes)
    (dssid dpass : Bytes) (h1 : s.hotspot_enabled = true) :
    enable_hotspot s env ssid password dssid dpass =
      ⟨s, EnableResult.alreadyEnabled, []⟩ := by
  simp [enable_hotspot, h1]

/-- Branch equation: the STA precondition check fails. -/
lemma enable_eq_precond (s : GatewayState) (env : EnableEnv) (ssid password : Option Bytes)
    (dssid dpass : Bytes) (h1 : s.hotspot_enabled = false)
    (h2 : (!env.sta_exists || !env.sta_get_ip_ok || env.sta_ip == 0) = true) :
    enable_hotspot s env ssid password dssid dpass =
      ⟨s, EnableResult.preconditionFailed, []⟩ := by
  simp [enable_hotspot, h1, h2]

/-- Branch equation: AP interface creation fails. -/
lemma enable_eq_createFail (s : GatewayState) (env : EnableEnv) (ssid password : Option Bytes)
    (dssid dpass : Bytes) (h1 : s.hotspot_enabled = false)
    (h2 : (!env.sta_exists || !env.sta_get_ip_ok || env.sta_ip == 0) = false)
    (h3 : (!s.ap_netif && !env.ap_create_ok) = true) :
    enable_hotspot s env ssid password dssid dpass =
      ⟨s, EnableResult.apCreateFailed, []⟩ := by
  simp [enable_hotspot, h1, h2, h3]

/-- Branch equation: the APSTA mode switch fails. -/
lemma enable_eq_modeFail (s : GatewayState) (env : EnableEnv) (ssid password : Option Bytes)
    (dssid dpass : Bytes) (h1 : s.hotspot_enabled = false)
    (h2 : (!env.sta_exists || !env.sta_get_ip_ok || env.sta_ip == 0) = false)
    (h3 : (!s.ap_netif && !env.ap_create_ok) = false)
    (h4 : env.set_mode_ok = false) :
    enable_hotspot s env ssid password dssid dpass =
      ⟨(oneTimeApSetup s env).1, EnableResult.modeSwitchFailed,
       (oneTimeApSetup s env).2 ++ [Ev.setMode WifiMode.apsta]⟩ := by
  simp [enable_hotspot, h1, h2, h3, h4]

/-- Branch equation: applying the AP config fails. -/
lemma enable_eq_cfgFail (s : GatewayState) (env : EnableEnv) (ssid password : Option Bytes)
    (dssid dpass : Bytes) (h1 : s.hotspot_enabled = false)
    (h2 : (!env.sta_exists || !env.sta_get_ip_ok || env.sta_ip == 0) = false)
    (h3 : (!s.ap_netif && !env.ap_create_ok) = false)
    (h4 : env.set_mode_ok = true) (h5 : env.set_config_ok = false) :
    enable_hotspot s env ssid password dssid dpass =
      ⟨{ (oneTimeApSetup s env).1 with wifi_mode := WifiMode.apsta },
       EnableResult.apConfigFailed, preTrace s env ssid password dssid dpass⟩ := by
  simp [enable_hotspot, h1, h2, h3, h4, h5]

/-- Branch equation: the AP address poll times out. -/
lemma enable_eq_notReady (s : GatewayState) (env : EnableEnv) (ssid password : Option Bytes)
    (dssid dpass : Bytes) (h1 : s.hotspot_enabled = false)
    (h2 : (!env.sta_exists || !env.sta_get_ip_ok || env.sta_ip == 0) = false)
    (h3 : (!s.ap_netif && !env.ap_create_ok) = false)
    (h4 : env.set_mode_ok = true) (h5 : env.set_config_ok = true)
    (h6 : ((pollLoop env.ap_poll 0 20).1 == 0) = true) :
    enable_hotspot s env ssid password dssid dpass =
      ⟨cfgState s env ssid password dssid dpass, EnableResult.interfaceNotReady,
       preTrace s env ssid password dssid dpass ++ (pollLoop env.ap_poll 0 20).2⟩ := by
  simp [enable_hotspot, h1, h2, h3, h4, h5, h6]

/-- Branch equation: the STA handle is gone at step 6. -/
lemma enable_eq_staLost (s : GatewayState) (env : EnableEnv) (ssid password : Option Bytes)
    (dssid dpass : Bytes) (h1 : s.hotspot_enabled = false)
    (h2 : (!env.sta_exists || !env.sta_get_ip_ok || env.sta_ip == 0) = false)
    (h3 : (!s.ap_netif && !env.ap_create_ok) = false)
    (h4 : env.set_mode_ok = true) (h5 : env.set_config_ok = true)
    (h6 : ((pollLoop env.ap_poll 0 20).1 == 0) = false)
    (h7 : env.sta_exists2 = false) :
    enable_hotspot s env ssid password dssid dpass =
      ⟨cfgState s env ssid password dssid dpass, EnableResult.staHandleLost,
       preTrace s env ssid password dssid dpass ++ (pollLoop env.ap_poll 0 20).2⟩ := by
  simp [enable_hotspot, h1, h2, h3, h4, h5, h6, h7]

/-- Branch equation: reading the STA address fails at step 6. -/
lemma enable_eq_staIpFail (s : GatewayState) (env : EnableEnv) (ssid password : Option Bytes)
    (dssid dpass : Bytes) (h1 : s.hotspot_enabled = false)
    (h2 : (!env.sta_exists || !env.sta_get_ip_ok || env.sta_ip == 0) = false)
    (h3 : (!s.ap_netif && !env.ap_create_ok) = false)
    (h4 : env.set_mode_ok = true) (h5 : env.set_config_ok = true)
    (h6 : ((pollLoop env.ap_poll 0 20).1 == 0) = false)
    (h7 : env.sta_exists2 = true) (h8 : env.sta_get_ip_ok2 = false) :
    enable_hotspot s env ssid password dssid dpass =
      ⟨cfgState s env ssid password dssid dpass, EnableResult.staIpReadFailed,
       preTrace s env ssid password dssid dpass ++ (pollLoop env.ap_poll 0 20).2⟩ := by
  simp [enable_hotspot, h1, h2, h3, h4, h5, h6, h7, h8]

/-- Branch equation: the upstream address is zero at step 6. -/
lemma enable_eq_upstreamLost (s : GatewayState) (env : EnableEnv) (ssid password : Option Bytes)
    (dssid dpass : Bytes) (h1 : s.hotspot_enabled = false)
    (h2 : (!env.sta_exists || !env.sta_get_ip_ok || env.sta_ip == 0) = false)
    (h3 : (!s.ap_netif && !env.ap_create_ok) = false)
    (h4 : env.set_mode_ok = true) (h5 : env.set_config_ok = true)
    (h6 : ((pollLoop env.ap_poll 0 20).1 == 0) = false)
    (h7 : env.sta_exists2 = true) (h8 : env.sta_get_ip_ok2 = true)
    (h9 : (env.sta_ip2 == 0) = true) :
    enable_hotspot s env ssid password dssid dpass =
      ⟨cfgState s env ssid password dssid dpass, EnableResult.upstreamUnavailable,
       preTrace s env ssid password dssid dpass ++ (pollLoop env.ap_poll 0 20).2⟩ := by
  simp [enable_hotspot, h1, h2, h3, h4, h5, h6, h7, h8, h9]

/-- Branch equation: full success, spawning the forwarder task. -/
lemma enable_eq_success_start (s : GatewayState) (env : EnableEnv)
    (ssid password : Option Bytes)
    (dssid dpass : Bytes) (h1 : s.hotspot_enabled = false)
    (h2 : (!env.sta_exists || !env.sta_get_ip_ok || env.sta_ip == 0) = false)
    (h3 : (!s.ap_netif && !env.ap_create_ok) = false)
    (h4 : env.set_mode_ok = true) (h5 : env.set_config_ok = true)
    (h6 : ((pollLoop env.ap_poll 0 20).1 == 0) = false)
    (h7 : env.sta_exists2 = true) (h8 : env.sta_get_ip_ok2 = true)
    (h9 : (env.sta_ip2 == 0) = false)
    (h10 : s.dns_forwarder_task_handle = false) :
    enable_hotspot s env ssid password dssid dpass =
      ⟨{ (naptStep (dnsState s env ssid password dssid dpass)
            (pollLoop env.ap_poll 0 20).1).1 with
          hotspot_enabled := true, dns_forwarder_task_handle := true },
       EnableResult.success,
       preTrace s env ssid password dssid dpass ++ (pollLoop env.ap_poll 0 20).2
         ++ (naptStep (dnsState s env ssid password dssid dpass)
               (pollLoop env.ap_poll 0 20).1).2 ++ [Ev.startWorker]⟩ := by
  simp [enable_hotspot, h1, h2, h3, h4, h5, h6, h7, h8, h9, h10]

/-- Branch equation: full success with the forwarder already running. -/
lemma enable_eq_success_noStart (s : GatewayState) (env : EnableEnv)
    (ssid password : Option Bytes)
    (dssid dpass : Bytes) (h1 : s.hotspot_enabled = false)
    (h2 : (!env.sta_exists || !env.sta_get_ip_ok || env.sta_ip == 0) = false)
    (h3 : (!s.ap_netif && !env.ap_create_ok) = false)
    (h4 : env.set_mode_ok = true) (h5 : env.set_config_ok = true)
    (h6 : ((pollLoop env.ap_poll 0 20).1 == 0) = false)
    (h7 : env.sta_exists2 = true) (h8 : env.sta_get_ip_ok2 = true)
    (h9 : (env.sta_ip2 == 0) = false)
    (h10 : s.dns_forwarder_task_handle = true) :
    enable_hotspot s env ssid password dssid dpass =
      ⟨{ (naptStep (dnsState s env ssid password dssid dpass)
            (pollLoop env.ap_poll 0 20).1).1 with hotspot_enabled := true },
       EnableResult.success,
       preTrace s env ssid password dssid dpass ++ (pollLoop env.ap_poll 0 20).2
         ++ (naptStep (dnsState s env ssid password dssid dpass)
               (pollLoop env.ap_poll 0 20).1).2⟩ := by
  simp [enable_hotspot, h1, h2, h3, h4, h5, h6, h7, h8, h9, h10]

/-- The state invariant maintained across orchestrator calls: the
translation binding is present exactly when the gateway is enabled, and a
present binding is on a non-zero address. -/
def Inv (s : GatewayState) : Prop :=
  s.napt_enabled = s.hotspot_enabled ∧ (s.napt_enabled = true → s.napt_address ≠ 0)

lemma inv_init : Inv initState := by
  constructor <;> simp [initState]

lemma inv_enable (s : GatewayState) (env : EnableEnv) (ssid password : Option Bytes)
    (dssid dpass : Bytes) (h : Inv s) :
    Inv (enable_hotspot s env ssid password dssid dpass).state := by
  obtain ⟨h1, h2⟩ := h
  by_cases c1 : s.hotspot_enabled = true
  · rw [enable_eq_already s env ssid password dssid dpass c1]
    exact ⟨h1, h2⟩
  have c1f : s.hotspot_enabled = false := by simpa using c1
  by_cases c2 : (!env.sta_exists || !env.sta_get_ip_ok || env.sta_ip == 0) = true
  · rw [enable_eq_precond s env ssid password dssid dpass c1f c2]
    exact ⟨h1, h2⟩
  have c2f : (!env.sta_exists || !env.sta_get_ip_ok || env.sta_ip == 0) = false := by
    simpa using c2
  by_cases c3 : (!s.ap_netif && !env.ap_create_ok) = true
  · rw [enable_eq_createFail s env ssid password dssid dpass c1f c2f c3]
    exact ⟨h1, h2⟩
  have c3f : (!s.ap_netif && !env.ap_create_ok) = false := by simpa using c3
  by_cases c4 : env.set_mode_ok = false
  · rw [enable_eq_modeFail s env ssid password dssid dpass c1f c2f c3f c4]
    exact ⟨by simpa using h1, fun hn => by simpa using h2 (by simpa using hn)⟩
  have c4t : env.set_mode_ok = true := by simpa using c4
  by_cases c5 : env.set_config_ok = false
  · rw [enable_eq_cfgFail s env ssid password dssid dpass c1f c2f c3f c4t c5]
    exact ⟨by simpa using h1, fun hn => by simpa using h2 (by simpa using hn)⟩
  have c5t : env.set_config_ok = true := by simpa using c5
  by_cases c6 : ((pollLoop env.ap_poll 0 20).1 == 0) = true
  · rw [enable_eq_notReady s env ssid password dssid dpass c1f c2f c3f c4t c5t c6]
    exact ⟨by simpa using h1, fun hn => by simpa using h2 (by simpa using hn)⟩
  have c6f : ((pollLoop env.ap_poll 0 20).1 == 0) = false := by simpa using c6
  by_cases c7 : env.sta_exists2 = false
  · rw [enable_eq_staLost s env ssid password dssid dpass c1f c2f c3f c4t c5t c6f c7]
    exact ⟨by simpa using h1, fun hn => by simpa using h2 (by simpa using hn)⟩
  have c7t : env.sta_exists2 = true := by simpa using c7
  by_cases c8 : env.sta_get_ip_ok2 = false
  · rw [enable_eq_staIpFail s env ssid password dssid dpass c1f c2f c3f c4t c5t c6f c7t c8]
    exact ⟨by simpa using h1, fun hn => by simpa using h2 (by simpa using hn)⟩
  have c8t : env.sta_get_ip_ok2 = true := by simpa using c8
  by_cases c9 : (env.sta_ip2 == 0) = true
  · rw [enable_eq_upstreamLost s env ssid password dssid dpass c1f c2f c3f c4t c5t c6f c7t
      c8t c9]
    exact ⟨by simpa using h1, fun hn => by simpa using h2 (by simpa using hn)⟩
  have c9f : (env.sta_ip2 == 0) = false := by simpa using c9
  by_cases c10 : s.dns_forwarder_task_handle = false
  · rw [enable_eq_success_start s env ssid password dssid dpass c1f c2f c3f c4t c5t c6f c7t
      c8t c9f c10]
    exact ⟨by simp, fun hn => by simpa using c6f⟩
  have c10t : s.dns_forwarder_task_handle = true := by simpa using c10
  rw [enable_eq_success_noStart s env ssid password dssid dpass c1f c2f c3f c4t c5t c6f c7t
    c8t c9f c10t]
  exact ⟨by simp, fun hn => by simpa using c6f⟩

lemma inv_disable (s : GatewayState) (env : DisableEnv) (h : Inv s) :
    Inv (disable_hotspot s env).1 := by
  obtain ⟨h1, h2⟩ := h
  have hstop : (stopWorker { s with hotspot_enabled := false }).1.napt_enabled = true →
      (stopWorker { s with hotspot_enabled := false }).1.napt_address ≠ 0 := by
    intro hn
    simpa using h2 (by simpa using hn)
  have hclear := unbindNapt_clears _ hstop
  unfold disable_hotspot
  split_ifs with c1 c2
  · exact ⟨h1, h2⟩
  · refine ⟨?_, ?_⟩
    · simpa using hclear
    · intro hn
      simp [hclear] at hn
  · refine ⟨?_, ?_⟩
    · simpa using hclear
    · intro hn
      simp [hclear] at hn

lemma inv_runCalls (calls : List Call) :
    ∀ s : GatewayState, Inv s → Inv (runCalls s calls) := by
  induction calls with
  | nil => intro s h; simpa [runCalls] using h
  | cons c rest ih =>
      intro s h
      cases c with
      | enable env ssid password =>
          exact ih _ (inv_enable s env ssid password _ _ h)
      | disable env => exact ih _ (inv_disable s env h)

/-- An environment in which every external call succeeds; the AP reports
address 5 on the first poll attempt. -/
def goodEnv : EnableEnv where
  sta_exists := true
  sta_get_ip_ok := true
  sta_ip := 9
  ap_create_ok := true
  boot_dns_ok := true
  boot_dns := 3
  set_mode_ok := true
  set_config_ok := true
  ap_poll := fun _ => some 5
  sta_exists2 := true
  sta_get_ip_ok2 := true
  sta_ip2 := 9
  sta_dns_ok2 := true
  sta_dns2 := 3

/-- Claim C1: for every finite sequence of enable_hotspot/disable_hotspot
calls from the initial state, sampled immediately after each call
returns, the translation binding is present (napt_enabled = true) iff the
gateway is enabled (hotspot_enabled = true). -/
theorem napt_bound_iff_hotspot_enabled (calls : List Call) :
    (runCalls initState calls).napt_enabled = true ↔
      (runCalls initState calls).hotspot_enabled = true := by
  rw [(inv_runCalls calls initState inv_init).1]

/-- Claim C9: enable_hotspot called while hotspot_enabled is true is a
no-op: it returns immediately, the entire state after the call equals the
state before it, and no external call is made. -/
theorem enable_noop_when_enabled (s : GatewayState) (env : EnableEnv)
    (ssid password : Option Bytes) (dssid dpass : Bytes)
    (h : s.hotspot_enabled = true) :
    enable_hotspot s env ssid password dssid dpass =
      ⟨s, EnableResult.alreadyEnabled, []⟩ :=
  enable_eq_already s env ssid password dssid dpass h

/-- Witness for the claim-C9 theorem at a concrete enabled state. -/
theorem enable_noop_when_enabled_witness :
    enable_hotspot { initState with hotspot_enabled := true } goodEnv none none
        DEFAULT_HOTSPOT_SSID DEFAULT_HOTSPOT_PASSWORD =
      ⟨{ initState with hotspot_enabled := true }, EnableResult.alreadyEnabled, []⟩ :=
  enable_noop_when_enabled _ goodEnv none none _ _ rfl

/-- Claim C7: if enable_hotspot is called with hotspot_enabled = false
while the upstream STA interface is absent or holds a zero address, the
call fails immediately with the precondition error, leaving the whole
state (ap_netif, napt_enabled, napt_address, hotspot_enabled, ...)
unchanged and issuing no external call. -/
theorem enable_precondition_frame (s : GatewayState) (env : EnableEnv)
    (ssid password : Option Bytes) (dssid dpass : Bytes)
    (h1 : s.hotspot_enabled = false)
    (h2 : env.sta_exists = false ∨ env.sta_ip = 0) :
    enable_hotspot s env ssid password dssid dpass =
      ⟨s, EnableResult.preconditionFailed, []⟩ := by
  apply enable_eq_precond s env ssid password dssid dpass h1
  rcases h2 with h | h <;> simp [h]

/-- Witness for the claim-C7 theorem with an absent STA interface. -/
theorem enable_precondition_frame_witness :
    enable_hotspot initState { goodEnv with sta_exists := false } none none
        DEFAULT_HOTSPOT_SSID DEFAULT_HOTSPOT_PASSWORD =
      ⟨initState, EnableResult.preconditionFailed, []⟩ :=
  enable_precondition_frame initState _ none none _ _ rfl (Or.inl rfl)

/-- Claim C2: every failure exit of enable_hotspot (precondition,
interface creation, mode switch, AP config, address-poll timeout,
STA re-read failures and upstream-address loss) returns with
hotspot_enabled = false; no translation call is issued on a failing run,
and nothing is retried automatically: at most one mode-switch call, at
most one config call, and at most 20 address polls occur. -/
theorem enable_failure_leaves_disabled (s : GatewayState) (env : EnableEnv)
    (ssid password : Option Bytes) (dssid dpass : Bytes)
    (h : (enable_hotspot s env ssid password dssid dpass).result.isFailure = true) :
    (enable_hotspot s env ssid password dssid dpass).state.hotspot_enabled = false
    ∧ naptCalls (enable_hotspot s env ssid password dssid dpass).trace = []
    ∧ ((enable_hotspot s env ssid password dssid dpass).trace.filter
        Ev.isSetMode).length ≤ 1
    ∧ ((enable_hotspot s env ssid password dssid dpass).trace.filter
        Ev.isSetCfg).length ≤ 1
    ∧ ((enable_hotspot s env ssid password dssid dpass).trace.filter
        Ev.isDelay100).length ≤ 20 := by
  by_cases c1 : s.hotspot_enabled = true
  · rw [enable_eq_already s env ssid password dssid dpass c1] at h
    simp [EnableResult.isFailure] at h
  have c1f : s.hotspot_enabled = false := by simpa using c1
  by_cases c2 : (!env.sta_exists || !env.sta_get_ip_ok || env.sta_ip == 0) = true
  · rw [enable_eq_precond s env ssid password dssid dpass c1f c2]
    exact ⟨c1f, by simp [naptCalls], by simp, by simp, by simp⟩
  have c2f : (!env.sta_exists || !env.sta_get_ip_ok || env.sta_ip == 0) = false := by
    simpa using c2
  by_cases c3 : (!s.ap_netif && !env.ap_create_ok) = true
  · rw [enable_eq_createFail s env ssid password dssid dpass c1f c2f c3]
    exact ⟨c1f, by simp [naptCalls], by simp, by simp, by simp⟩
  have c3f : (!s.ap_netif && !env.ap_create_ok) = false := by simpa using c3
  by_cases c4 : env.set_mode_ok = false
  · rw [enable_eq_modeFail s env ssid password dssid dpass c1f c2f c3f c4]
    refine ⟨by simp [c1f], ?_, ?_, ?_, ?_⟩ <;>
      simp [naptCalls, List.filter_append, Ev.isNapt, Ev.isSetMode, Ev.isSetCfg,
        Ev.isDelay100]
  have c4t : env.set_mode_ok = true := by simpa using c4
  by_cases c5 : env.set_config_ok = false
  · rw [enable_eq_cfgFail s env ssid password dssid dpass c1f c2f c3f c4t c5]
    exact ⟨by simp [c1f], by simp [naptCalls], by simp, by simp, by simp⟩
  have c5t : env.set_config_ok = true := by simpa using c5
  by_cases c6 : ((pollLoop env.ap_poll 0 20).1 == 0) = true
  · rw [enable_eq_notReady s env ssid password dssid dpass c1f c2f c3f c4t c5t c6]
    refine ⟨by simp [c1f], ?_, ?_, ?_, ?_⟩
    · simp [naptCalls, List.filter_append,
        poll_filter_eq_nil env.ap_poll 0 20 Ev.isNapt rfl]
    · simp [List.filter_append, poll_filter_eq_nil env.ap_poll 0 20 Ev.isSetMode rfl]
    · simp [List.filter_append, poll_filter_eq_nil env.ap_poll 0 20 Ev.isSetCfg rfl]
    · rw [EnableOut.trace, List.filter_append, preTrace_filter_delay100,
        poll_filter_delay100]
      simpa using pollLoop_length 20 env.ap_poll 0
  have c6f : ((pollLoop env.ap_poll 0 20).1 == 0) = false := by simpa using c6
  by_cases c7 : env.sta_exists2 = false
  · rw [enable_eq_staLost s env ssid password dssid dpass c1f c2f c3f c4t c5t c6f c7]
    refine ⟨by simp [c1f], ?_, ?_, ?_, ?_⟩
    · simp [naptCalls, List.filter_append,
        poll_filter_eq_nil env.ap_poll 0 20 Ev.isNapt rfl]
    · simp [List.filter_append, poll_filter_eq_nil env.ap_poll 0 20 Ev.isSetMode rfl]
    · simp [List.filter_append, poll_filter_eq_nil env.ap_poll 0 20 Ev.isSetCfg rfl]
    · rw [EnableOut.trace, List.filter_append, preTrace_filter_delay100,
        poll_filter_delay100]
      simpa using pollLoop_length 20 env.ap_poll 0
  have c7t : env.sta_exists2 = true := by simpa using c7
  by_cases c8 : env.sta_get_ip_ok2 = false
  · rw [enable_eq_staIpFail s env ssid password dssid dpass c1f c2f c3f c4t c5t c6f c7t c8]
    refine ⟨by simp [c1f], ?_, ?_, ?_, ?_⟩
    · simp [naptCalls, List.filter_append,
        poll_filter_eq_nil env.ap_poll 0 20 Ev.isNapt rfl]
    · simp [List.filter_append, poll_filter_eq_nil env.ap_poll 0 20 Ev.isSetMode rfl]
    · simp [List.filter_append, poll_filter_eq_nil env.ap_poll 0 20 Ev.isSetCfg rfl]
    · rw [EnableOut.trace, List.filter_append, preTrace_filter_delay100,
        poll_filter_delay100]
      simpa using pollLoop_length 20 env.ap_poll 0
  have c8t : env.sta_get_ip_ok2 = true := by simpa using c8
  by_cases c9 : (env.sta_ip2 == 0) = true
  · rw [enable_eq_upstreamLost s env ssid password dssid dpass c1f c2f c3f c4t c5t c6f
      c7t c8t c9]
    refine ⟨by simp [c1f], ?_, ?_, ?_, ?_⟩
    · simp [naptCalls, List.filter_append,
        poll_filter_eq_nil env.ap_poll 0 20 Ev.isNapt rfl]
    · simp [List.filter_append, poll_filter_eq_nil env.ap_poll 0 20 Ev.isSetMode rfl]
    · simp [List.filter_append, poll_filter_eq_nil env.ap_poll 0 20 Ev.isSetCfg rfl]
    · rw [EnableOut.trace, List.filter_append, preTrace_filter_delay100,
        poll_filter_delay100]
      simpa using pollLoop_length 20 env.ap_poll 0
  have c9f : (env.sta_ip2 == 0) = false := by simpa using c9
  by_cases c10 : s.dns_forwarder_task_handle = false
  · rw [enable_eq_success_start s env ssid password dssid dpass c1f c2f c3f c4t c5t c6f
      c7t c8t c9f c10] at h
    simp [EnableResult.isFailure] at h
  have c10t : s.dns_forwarder_task_handle = true := by simpa using c10
  rw [enable_eq_success_noStart s env ssid password dssid dpass c1f c2f c3f c4t c5t c6f
    c7t c8t c9f c10t] at h
  simp [EnableResult.isFailure] at h

/-- Witness for the claim-C2 theorem on the precondition-failure exit. -/
theorem enable_failure_leaves_disabled_witness :
    (enable_hotspot initState { goodEnv with sta_exists := false } none none
        DEFAULT_HOTSPOT_SSID DEFAULT_HOTSPOT_PASSWORD).state.hotspot_enabled = false
    ∧ naptCalls (enable_hotspot initState { goodEnv with sta_exists := false } none none
        DEFAULT_HOTSPOT_SSID DEFAULT_HOTSPOT_PASSWORD).trace = []
    ∧ ((enable_hotspot initState { goodEnv with sta_exists := false } none none
        DEFAULT_HOTSPOT_SSID DEFAULT_HOTSPOT_PASSWORD).trace.filter
        Ev.isSetMode).length ≤ 1
    ∧ ((enable_hotspot initState { goodEnv with sta_exists := false } none none
        DEFAULT_HOTSPOT_SSID DEFAULT_HOTSPOT_PASSWORD).trace.filter
        Ev.isSetCfg).length ≤ 1
    ∧ ((enable_hotspot initState { goodEnv with sta_exists := false } none none
        DEFAULT_HOTSPOT_SSID DEFAULT_HOTSPOT_PASSWORD).trace.filter
        Ev.isDelay100).length ≤ 20 :=
  enable_failure_leaves_disabled initState _ none none _ _ (by decide)

/-- Claim C8: the wait for the AP interface address makes at most 20 poll
attempts, one 100ms delay each (a 2-second ceiling), and always
terminates; when every attempt sees a failed read or a zero address the
call fails with interfaceNotReady after exactly 20 polls, leaving the
mode switch and the AP config applied (no rollback) and the gateway
disabled. -/
theorem enable_poll_timeout_bounded (s : GatewayState) (env : EnableEnv)
    (ssid password : Option Bytes) (dssid dpass : Bytes)
    (h1 : s.hotspot_enabled = false)
    (h2 : (!env.sta_exists || !env.sta_get_ip_ok || env.sta_ip == 0) = false)
    (h3 : (!s.ap_netif && !env.ap_create_ok) = false)
    (h4 : env.set_mode_ok = true) (h5 : env.set_config_ok = true)
    (hpoll : ∀ i, i < 20 → env.ap_poll i = none ∨ env.ap_poll i = some 0) :
    enable_hotspot s env ssid password dssid dpass =
      ⟨cfgState s env ssid password dssid dpass, EnableResult.interfaceNotReady,
       preTrace s env ssid password dssid dpass ++ List.replicate 20 (Ev.delay 100)⟩
    ∧ (cfgState s env ssid password dssid dpass).wifi_mode = WifiMode.apsta
    ∧ (cfgState s env ssid password dssid dpass).ap_config =
        some (mk_ap_config ssid password dssid dpass)
    ∧ (cfgState s env ssid password dssid dpass).hotspot_enabled = false
    ∧ (∀ g : Nat → Option Nat, ((pollLoop g 0 20).2).length ≤ 20) := by
  have hp : pollLoop env.ap_poll 0 20 = (0, List.replicate 20 (Ev.delay 100)) :=
    pollLoop_timeout 20 env.ap_poll 0 (fun i _ hi => hpoll i (by omega))
  have h6 : ((pollLoop env.ap_poll 0 20).1 == 0) = true := by rw [hp]; rfl
  refine ⟨?_, by simp, by simp, by simp [h1], fun g => pollLoop_length 20 g 0⟩
  rw [enable_eq_notReady s env ssid password dssid dpass h1 h2 h3 h4 h5 h6, hp]

/-- Witness for the claim-C8 theorem with an always-zero address poll. -/
theorem enable_poll_timeout_bounded_witness :
    enable_hotspot initState { goodEnv with ap_poll := fun _ => some 0 } none none
        DEFAULT_HOTSPOT_SSID DEFAULT_HOTSPOT_PASSWORD =
      ⟨cfgState initState { goodEnv with ap_poll := fun _ => some 0 } none none
         DEFAULT_HOTSPOT_SSID DEFAULT_HOTSPOT_PASSWORD,
       EnableResult.interfaceNotReady,
       preTrace initState { goodEnv with ap_poll := fun _ => some 0 } none none
         DEFAULT_HOTSPOT_SSID DEFAULT_HOTSPOT_PASSWORD
         ++ List.replicate 20 (Ev.delay 100)⟩
    ∧ (cfgState initState { goodEnv with ap_poll := fun _ => some 0 } none none
        DEFAULT_HOTSPOT_SSID DEFAULT_HOTSPOT_PASSWORD).wifi_mode = WifiMode.apsta
    ∧ (cfgState initState { goodEnv with ap_poll := fun _ => some 0 } none none
        DEFAULT_HOTSPOT_SSID DEFAULT_HOTSPOT_PASSWORD).ap_config =
        some (mk_ap_config none none DEFAULT_HOTSPOT_SSID DEFAULT_HOTSPOT_PASSWORD)
    ∧ (cfgState initState { goodEnv with ap_poll := fun _ => some 0 } none none
        DEFAULT_HOTSPOT_SSID DEFAULT_HOTSPOT_PASSWORD).hotspot_enabled = false
    ∧ (∀ g : Nat → Option Nat, ((pollLoop g 0 20).2).length ≤ 20) :=
  enable_poll_timeout_bounded initState _ none none _ _ rfl (by decide) (by decide)
    (by decide) (by decide) (fun i _ => Or.inr rfl)

/-- Claim C3: whenever a successful enable_hotspot run rebinds the
translation to an AP address different from the currently bound non-zero
address, its trace unbinds the old address first, waits the 100ms
settling delay, and only then binds the new address; these are the only
translation calls in the trace, so no two bindings are ever live at
once. -/
theorem rebind_unbinds_old_before_bind (s : GatewayState) (env : EnableEnv)
    (ssid password : Option Bytes) (dssid dpass : Bytes)
    (h1 : s.hotspot_enabled = false)
    (h2 : (!env.sta_exists || !env.sta_get_ip_ok || env.sta_ip == 0) = false)
    (h3 : (!s.ap_netif && !env.ap_create_ok) = false)
    (h4 : env.set_mode_ok = true) (h5 : env.set_config_ok = true)
    (h6 : ((pollLoop env.ap_poll 0 20).1 == 0) = false)
    (h7 : env.sta_exists2 = true) (h8 : env.sta_get_ip_ok2 = true)
    (h9 : (env.sta_ip2 == 0) = false)
    (hb : s.napt_enabled = true) (hnz : s.napt_address ≠ 0)
    (hdiff : s.napt_address ≠ (pollLoop env.ap_poll 0 20).1) :
    ∃ pre post,
      (enable_hotspot s env ssid password dssid dpass).trace =
        pre ++ [Ev.napt s.napt_address 0, Ev.delay 100,
                Ev.napt (pollLoop env.ap_poll 0 20).1 1] ++ post
      ∧ naptCalls pre = [] ∧ naptCalls post = [] := by
  have hn : (naptStep (dnsState s env ssid password dssid dpass)
      (pollLoop env.ap_poll 0 20).1).2 =
      [Ev.napt s.napt_address 0, Ev.delay 100,
       Ev.napt (pollLoop env.ap_poll 0 20).1 1] := by
    have hx := naptStep_trace_rebind (dnsState s env ssid password dssid dpass)
      ((pollLoop env.ap_poll 0 20).1) (by simpa using hb) (by simpa using hnz)
      (by simpa using hdiff)
    simpa using hx
  by_cases c10 : s.dns_forwarder_task_handle = false
  · rw [enable_eq_success_start s env ssid password dssid dpass h1 h2 h3 h4 h5 h6 h7
      h8 h9 c10]
    refine ⟨preTrace s env ssid password dssid dpass ++ (pollLoop env.ap_poll 0 20).2,
      [Ev.startWorker], ?_, ?_, ?_⟩
    · rw [EnableOut.trace, hn]
    · simp [naptCalls, List.filter_append,
        poll_filter_eq_nil env.ap_poll 0 20 Ev.isNapt rfl]
    · simp [naptCalls, Ev.isNapt]
  · have c10t : s.dns_forwarder_task_handle = true := by simpa using c10
    rw [enable_eq_success_noStart s env ssid password dssid dpass h1 h2 h3 h4 h5 h6 h7
      h8 h9 c10t]
    refine ⟨preTrace s env ssid password dssid dpass ++ (pollLoop env.ap_poll 0 20).2,
      [], ?_, ?_, ?_⟩
    · rw [EnableOut.trace, hn, List.append_nil]
    · simp [naptCalls, List.filter_append,
        poll_filter_eq_nil env.ap_poll 0 20 Ev.isNapt rfl]
    · simp [naptCalls]

/-- Witness for the claim-C3 theorem: a state bound on address 7 rebinds
to the polled AP address 5. -/
theorem rebind_unbinds_old_before_bind_witness :
    ∃ pre post,
      (enable_hotspot
          { initState with ap_netif := true, napt_enabled := true, napt_address := 7 }
          goodEnv none none DEFAULT_HOTSPOT_SSID DEFAULT_HOTSPOT_PASSWORD).trace =
        pre ++ [Ev.napt 7 0, Ev.delay 100, Ev.napt (pollLoop goodEnv.ap_poll 0 20).1 1]
          ++ post
      ∧ naptCalls pre = [] ∧ naptCalls post = [] :=
  rebind_unbinds_old_before_bind
    { initState with ap_netif := true, napt_enabled := true, napt_address := 7 }
    goodEnv none none DEFAULT_HOTSPOT_SSID DEFAULT_HOTSPOT_PASSWORD
    rfl (by decide) (by decide) (by decide) (by decide) (by decide) (by decide)
    (by decide) (by decide) rfl (by decide) (by decide)

/-- Claim C10: the applied AP config carries, for a non-NULL ssid, the
ssid truncated to the 31 bytes strncpy can store while ssid_len is set to
the full untruncated strlen — hence a ssid of length at most 31 is
carried exactly with matching ssid_len — and a NULL ssid selects the
compiled-in default name. -/
theorem ap_ssid_truncation (u : Bytes) (password : Option Bytes) (dssid dpass : Bytes) :
    ((mk_ap_config (some u) password dssid dpass).ssid = u.take 31
     ∧ (mk_ap_config (some u) password dssid dpass).ssid_len = u.length)
    ∧ (u.length ≤ 31 → (mk_ap_config (some u) password dssid dpass).ssid = u)
    ∧ ((mk_ap_config none password dssid dpass).ssid = dssid.take 31
       ∧ (mk_ap_config none password dssid dpass).ssid_len = dssid.length) := by
  have hgen : ∀ v : Option Bytes,
      (mk_ap_config v password dssid dpass).ssid = (v.getD dssid).take 31
      ∧ (mk_ap_config v password dssid dpass).ssid_len = (v.getD dssid).length := by
    intro v
    cases password <;> simp only [mk_ap_config] <;> split_ifs <;> simp
  refine ⟨⟨(hgen (some u)).1, (hgen (some u)).2⟩, ?_, (hgen none).1, (hgen none).2⟩
  intro hle
  rw [(hgen (some u)).1]
  exact List.take_of_length_le (by simpa using hle)

/-- Witness for the claim-C10 theorem at a concrete 3-byte ssid. -/
theorem ap_ssid_truncation_witness :
    ((mk_ap_config (some [1, 2, 3]) none DEFAULT_HOTSPOT_SSID
        DEFAULT_HOTSPOT_PASSWORD).ssid = [1, 2, 3].take 31
     ∧ (mk_ap_config (some [1, 2, 3]) none DEFAULT_HOTSPOT_SSID
        DEFAULT_HOTSPOT_PASSWORD).ssid_len = [1, 2, 3].length)
    ∧ ([1, 2, 3].length ≤ 31 →
       (mk_ap_config (some [1, 2, 3]) none DEFAULT_HOTSPOT_SSID
        DEFAULT_HOTSPOT_PASSWORD).ssid = [1, 2, 3])
    ∧ ((mk_ap_config none none DEFAULT_HOTSPOT_SSID
        DEFAULT_HOTSPOT_PASSWORD).ssid = DEFAULT_HOTSPOT_SSID.take 31
       ∧ (mk_ap_config none none DEFAULT_HOTSPOT_SSID
          DEFAULT_HOTSPOT_PASSWORD).ssid_len = DEFAULT_HOTSPOT_SSID.length) :=
  ap_ssid_truncation [1, 2, 3] none DEFAULT_HOTSPOT_SSID DEFAULT_HOTSPOT_PASSWORD

/-- A 64-byte passphrase: one byte longer than the 63 bytes strncpy can
store in the 64-byte password field. -/
def longPass : Bytes := List.replicate 64 97

/-- Claim C6 counterexample: a valid 64-character passphrase does select
WPA2-PSK, but the configured passphrase is its 63-byte truncation, not
the exact passphrase the caller supplied. -/
theorem passphrase_exact_cex :
    (mk_ap_config none (some longPass) DEFAULT_HOTSPOT_SSID
        DEFAULT_HOTSPOT_PASSWORD).authmode = AuthMode.wpa2Psk
    ∧ (mk_ap_config none (some longPass) DEFAULT_HOTSPOT_SSID
        DEFAULT_HOTSPOT_PASSWORD).password ≠ longPass := by
  constructor
  · rfl
  · decide

/-- Claim C6 (amended): a non-null passphrase of length at least 8
selects WPA2-PSK with the passphrase truncated to the 63 bytes strncpy
can store — exactly that passphrase whenever its length is at most 63;
otherwise, a compiled-in default passphrase of length at least 8 selects
WPA2-PSK with the default (likewise truncated); otherwise an open
(unauthenticated) network is configured. -/
theorem passphrase_policy (ssid : Option Bytes) (p dssid dpass : Bytes) :
    (p.length ≥ 8 →
      (mk_ap_config ssid (some p) dssid dpass).authmode = AuthMode.wpa2Psk
      ∧ (mk_ap_config ssid (some p) dssid dpass).password = p.take 63
      ∧ (p.length ≤ 63 → (mk_ap_config ssid (some p) dssid dpass).password = p))
    ∧ (p.length < 8 → dpass.length ≥ 8 →
      (mk_ap_config ssid (some p) dssid dpass).authmode = AuthMode.wpa2Psk
      ∧ (mk_ap_config ssid (some p) dssid dpass).password = dpass.take 63)
    ∧ (p.length < 8 → dpass.length < 8 →
      (mk_ap_config ssid (some p) dssid dpass).authmode = AuthMode.openAuth
      ∧ (mk_ap_config ssid (some p) dssid dpass).password = [])
    ∧ (dpass.length ≥ 8 →
      (mk_ap_config ssid none dssid dpass).authmode = AuthMode.wpa2Psk
      ∧ (mk_ap_config ssid none dssid dpass).password = dpass.take 63)
    ∧ (dpass.length < 8 →
      (mk_ap_config ssid none dssid dpass).authmode = AuthMode.openAuth
      ∧ (mk_ap_config ssid none dssid dpass).password = []) := by
  refine ⟨?_, ?_, ?_, ?_, ?_⟩
  · intro h
    have h8 : 8 ≤ p.length := h
    refine ⟨by simp [mk_ap_config, h8], by simp [mk_ap_config, h8], ?_⟩
    intro hle
    simp [mk_ap_config, h8, List.take_of_length_le hle]
  · intro h hd
    have hn8 : ¬ 8 ≤ p.length := by omega
    have hd8 : 8 ≤ dpass.length := hd
    exact ⟨by simp [mk_ap_config, hn8, hd8], by simp [mk_ap_config, hn8, hd8]⟩
  · intro h hd
    have hn8 : ¬ 8 ≤ p.length := by omega
    have hnd : ¬ 8 ≤ dpass.length := by omega
    exact ⟨by simp [mk_ap_config, hn8, hnd], by simp [mk_ap_config, hn8, hnd]⟩
  · intro hd
    have hd8 : 8 ≤ dpass.length := hd
    exact ⟨by simp [mk_ap_config, hd8], by simp [mk_ap_config, hd8]⟩
  · intro hd
    have hnd : ¬ 8 ≤ dpass.length := by omega
    exact ⟨by simp [mk_ap_config, hnd], by simp [mk_ap_config, hnd]⟩

/-- Witness for the amended claim-C6 theorem at an 8-byte passphrase with
the compiled-in defaults. -/
theorem passphrase_policy_witness :
    ((List.replicate 8 97 : Bytes).length ≥ 8 →
      (mk_ap_config none (some (List.replicate 8 97)) DEFAULT_HOTSPOT_SSID
          DEFAULT_HOTSPOT_PASSWORD).authmode = AuthMode.wpa2Psk
      ∧ (mk_ap_config none (some (List.replicate 8 97)) DEFAULT_HOTSPOT_SSID
          DEFAULT_HOTSPOT_PASSWORD).password = (List.replicate 8 97 : Bytes).take 63
      ∧ ((List.replicate 8 97 : Bytes).length ≤ 63 →
         (mk_ap_config none (some (List.replicate 8 97)) DEFAULT_HOTSPOT_SSID
            DEFAULT_HOTSPOT_PASSWORD).password = List.replicate 8 97))
    ∧ ((List.replicate 8 97 : Bytes).length < 8 →
       DEFAULT_HOTSPOT_PASSWORD.length ≥ 8 →
      (mk_ap_config none (some (List.replicate 8 97)) DEFAULT_HOTSPOT_SSID
          DEFAULT_HOTSPOT_PASSWORD).authmode = AuthMode.wpa2Psk
      ∧ (mk_ap_config none (some (List.replicate 8 97)) DEFAULT_HOTSPOT_SSID
          DEFAULT_HOTSPOT_PASSWORD).password = DEFAULT_HOTSPOT_PASSWORD.take 63)
    ∧ ((List.replicate 8 97 : Bytes).length < 8 →
       DEFAULT_HOTSPOT_PASSWORD.length < 8 →
      (mk_ap_config none (some (List.replicate 8 97)) DEFAULT_HOTSPOT_SSID
          DEFAULT_HOTSPOT_PASSWORD).authmode = AuthMode.openAuth
      ∧ (mk_ap_config none (some (List.replicate 8 97)) DEFAULT_HOTSPOT_SSID
          DEFAULT_HOTSPOT_PASSWORD).password = [])
    ∧ (DEFAULT_HOTSPOT_PASSWORD.length ≥ 8 →
      (mk_ap_config none none DEFAULT_HOTSPOT_SSID
          DEFAULT_HOTSPOT_PASSWORD).authmode = AuthMode.wpa2Psk
      ∧ (mk_ap_config none none DEFAULT_HOTSPOT_SSID
          DEFAULT_HOTSPOT_PASSWORD).password = DEFAULT_HOTSPOT_PASSWORD.take 63)
    ∧ (DEFAULT_HOTSPOT_PASSWORD.length < 8 →
      (mk_ap_config none none DEFAULT_HOTSPOT_SSID
          DEFAULT_HOTSPOT_PASSWORD).authmode = AuthMode.openAuth
      ∧ (mk_ap_config none none DEFAULT_HOTSPOT_SSID
          DEFAULT_HOTSPOT_PASSWORD).password = []) :=
  passphrase_policy none (List.replicate 8 97) DEFAULT_HOTSPOT_SSID
    DEFAULT_HOTSPOT_PASSWORD

set_option maxRecDepth 4000 in
/-- Claim C4 counterexample: for a 512-byte upstream reply the worker
hands the client the 511-byte truncation (recvfrom reads at most
sizeof(tx_buffer) - 1 = 511 bytes), not the reply itself, so the client
is not sent exactly the bytes of the reply. -/
theorem dns_relay_exact_cex :
    sentToClient (dns_forwarder_loop 9 3
      [⟨true, RecvResult.datagram ⟨10, 20⟩ [1], ⟨true, some (List.replicate 512 7)⟩⟩]).events
      = some (List.replicate 511 7)
    ∧ List.replicate 511 (7 : Nat) ≠ List.replicate 512 (7 : Nat) := by
  constructor
  · rfl
  · intro hcontra
    have hlen := congrArg List.length hcontra
    simp at hlen

/-- Claim C4 (amended): for a non-empty inbound datagram, when the
transient upstream socket is created, the received query (truncated to
the 511 bytes the 512-byte buffer admits) is forwarded verbatim upstream;
a non-empty upstream reply R arriving within the timeout is forwarded
back to the original client as exactly the first min(|R|, 511) bytes of
R — exactly R whenever |R| is at most 511 — and when no reply arrives
nothing is sent back to the client. -/
theorem dns_relay_roundtrip (u : Nat) (sock : Int) (client : ClientAddr)
    (q : Bytes) (renv : RelayEnv) (hq : q ≠ [])
    (hs : renv.upstream_sock_ok = true) :
    (∀ r, renv.upstream_reply = some r → r ≠ [] →
      (dns_forwarder_loop u sock [⟨true, RecvResult.datagram client q, renv⟩]).events =
        [WEv.sendUpstream u (q.take 511), WEv.sendClient client (r.take 511)]
      ∧ (r.length ≤ 511 → r.take 511 = r))
    ∧ (renv.upstream_reply = none →
      (dns_forwarder_loop u sock [⟨true, RecvResult.datagram client q, renv⟩]).events =
        [WEv.sendUpstream u (q.take 511)]
      ∧ sentToClient (dns_forwarder_loop u sock
          [⟨true, RecvResult.datagram client q, renv⟩]).events = none) := by
  have hq0 : 0 < q.length := List.length_pos.mpr hq
  constructor
  · intro r hr hrne
    have hr0 : 0 < r.length := List.length_pos.mpr hrne
    constructor
    · simp [dns_forwarder_loop, relay_one, hs, hr, hq0, hr0]
    · intro hle
      exact List.take_of_length_le hle
  · intro hr
    constructor <;>
      simp [dns_forwarder_loop, relay_one, hs, hr, hq, hq0, sentToClient]

/-- Witness for the amended claim-C4 theorem: a 1-byte query answered by
a 2-byte reply reaches the client unmodified, and with no reply the
client receives nothing. -/
theorem dns_relay_roundtrip_witness :
    (∀ r, (⟨true, some [4, 5]⟩ : RelayEnv).upstream_reply = some r → r ≠ [] →
      (dns_forwarder_loop 9 3 [⟨true, RecvResult.datagram ⟨10, 20⟩ [1],
          ⟨true, some [4, 5]⟩⟩]).events =
        [WEv.sendUpstream 9 ([1].take 511), WEv.sendClient ⟨10, 20⟩ (r.take 511)]
      ∧ (r.length ≤ 511 → r.take 511 = r))
    ∧ ((⟨true, some [4, 5]⟩ : RelayEnv).upstream_reply = none →
      (dns_forwarder_loop 9 3 [⟨true, RecvResult.datagram ⟨10, 20⟩ [1],
          ⟨true, some [4, 5]⟩⟩]).events = [WEv.sendUpstream 9 ([1].take 511)]
      ∧ sentToClient (dns_forwarder_loop 9 3 [⟨true, RecvResult.datagram ⟨10, 20⟩ [1],
          ⟨true, some [4, 5]⟩⟩]).events = none) :=
  dns_relay_roundtrip 9 3 ⟨10, 20⟩ [1] ⟨true, some [4, 5]⟩ (by decide) rfl

/-- Claim C5: the forwarder samples hotspot_enabled exactly once at the
top of each loop iteration (one body runs per true sample and nothing is
consumed past the first false sample); at the first false sample it exits
the loop, closes its listening socket and resets dns_forwarder_socket to
-1; and disable_hotspot, immediately after clearing the flag, force-closes
the listening socket after its 200ms grace delay — within one 1000ms
receive tick plus a small constant — leaving the flag false and the
socket marker cleared. -/
theorem worker_stop_and_socket_close (u : Nat) (sock : Int)
    (l1 : List WorkerIter) (it : WorkerIter) (l2 : List WorkerIter)
    (s : GatewayState) (env : DisableEnv)
    (hl1 : ∀ j ∈ l1, j.flag = true ∧ j.recv ≠ RecvResult.fatal)
    (hit : it.flag = false)
    (hs1 : s.hotspot_enabled = true) (hs2 : s.dns_forwarder_task_handle = true)
    (hs3 : s.dns_forwarder_socket ≥ 0) :
    ((dns_forwarder_loop u sock (l1 ++ it :: l2)).exited = true
     ∧ (dns_forwarder_loop u sock (l1 ++ it :: l2)).socket_closed = true
     ∧ (dns_forwarder_loop u sock (l1 ++ it :: l2)).marker = -1
     ∧ (dns_forwarder_loop u sock (l1 ++ it :: l2)).processed = l1.length)
    ∧ (timeToClose (disable_hotspot s env).2 = 200
       ∧ 200 ≤ 1000 + 200
       ∧ (disable_hotspot s env).1.hotspot_enabled = false
       ∧ (disable_hotspot s env).1.dns_forwarder_socket = -1) := by
  have hw : stopWorker { s with hotspot_enabled := false } =
      ({ s with
          hotspot_enabled := false
          dns_forwarder_socket := -1
          dns_forwarder_task_handle := false },
       [Ev.delay 200, Ev.closeSocket]) := by
    simp [stopWorker, hs2, hs3]
  refine ⟨worker_first_false u sock l1 it l2 hl1 hit, ?_, by omega, ?_, ?_⟩
  · simp [disable_hotspot, hs1, hw, timeToClose]
  · by_cases hm : env.set_mode_ok = true
    · simp [disable_hotspot, hs1, hw, hm]
    · have hmf : env.set_mode_ok = false := by simpa using hm
      simp [disable_hotspot, hs1, hw, hmf]
  · by_cases hm : env.set_mode_ok = true
    · simp [disable_hotspot, hs1, hw, hm]
    · have hmf : env.set_mode_ok = false := by simpa using hm
      simp [disable_hotspot, hs1, hw, hmf]

/-- Witness for the claim-C5 theorem: one timeout tick, then the false
sample, against an enabled state holding socket 3. -/
theorem worker_stop_and_socket_close_witness :
    ((dns_forwarder_loop 0 3 ([⟨true, RecvResult.timeout, ⟨true, none⟩⟩]
        ++ ⟨false, RecvResult.timeout, ⟨true, none⟩⟩ :: [])).exited = true
     ∧ (dns_forwarder_loop 0 3 ([⟨true, RecvResult.timeout, ⟨true, none⟩⟩]
        ++ ⟨false, RecvResult.timeout, ⟨true, none⟩⟩ :: [])).socket_closed = true
     ∧ (dns_forwarder_loop 0 3 ([⟨true, RecvResult.timeout, ⟨true, none⟩⟩]
        ++ ⟨false, RecvResult.timeout, ⟨true, none⟩⟩ :: [])).marker = -1
     ∧ (dns_forwarder_loop 0 3 ([⟨true, RecvResult.timeout, ⟨true, none⟩⟩]
        ++ ⟨false, RecvResult.timeout, ⟨true, none⟩⟩ :: [])).processed =
        [(⟨true, RecvResult.timeout, ⟨true, none⟩⟩ : WorkerIter)].length)
    ∧ (timeToClose (disable_hotspot
         { initState with
             hotspot_enabled := true
             dns_forwarder_task_handle := true
             dns_forwarder_socket := 3 } ⟨true⟩).2 = 200
       ∧ 200 ≤ 1000 + 200
       ∧ (disable_hotspot
           { initState with
               hotspot_enabled := true
               dns_forwarder_task_handle := true
               dns_forwarder_socket := 3 } ⟨true⟩).1.hotspot_enabled = false
       ∧ (disable_hotspot
           { initState with
               hotspot_enabled := true
               dns_forwarder_task_handle := true
               dns_forwarder_socket := 3 } ⟨true⟩).1.dns_forwarder_socket = -1) :=
  worker_stop_and_socket_close 0 3 [⟨true, RecvResult.timeout, ⟨true, none⟩⟩]
    ⟨false, RecvResult.timeout, ⟨true, none⟩⟩ []
    { initState with
        hotspot_enabled := true
        dns_forwarder_task_handle := true
        dns_forwarder_socket := 3 } ⟨true⟩
    (by intro j hj; rw [List.mem_singleton] at hj; subst hj; exact ⟨rfl, by decide⟩)
    rfl rfl rfl (by decide)

end NaptInterface
